import Mathlib

/-!
Shallow embedding of the thema-ads bulk ad-refresh engine
(`thema_ads_optimized/main_optimized.py` and
`thema_ads_optimized/operations/labels.py`), checked against the
natural-language specification of the repository.

Python dictionaries are modelled as association lists with
first-match `List.lookup` semantics; the keys inserted by the code are
pairwise distinct wherever a lookup matters, which keeps the two
faithful to each other.  A raised Python exception is modelled as the
`Except.error` branch carrying the exception message; the distinction
between the remote-API exception class (`GoogleAdsException`, which
`labels.py` catches) and every other exception (which propagates) is
the `PyResult` type below.  Remote calls are supplied by an `Env`
record of oracles, and the dispatcher additionally returns the list of
remote calls it issued, so that statements about which mutations are
submitted can be expressed.
-/

namespace ThemaAds

/-- `models.AdGroupInput`: input data for processing an ad group. -/
structure AdGroupInput where
  customer_id : String
  campaign_name : String
  campaign_id : String
  ad_group_id : String
  deriving Repr, DecidableEq

/-- `models.ExistingAd`: existing RSA (creative) data cached per ad group. -/
structure ExistingAd where
  resource_name : String
  status : String
  headlines : List String
  descriptions : List String
  final_urls : List String
  path1 : String
  path2 : String
  deriving Repr, DecidableEq

/-- `models.CachedData`: prefetched data for a customer.  The maps are
association lists: label name → label resource, ad-group resource →
existing ad, campaign name → campaign resource. -/
structure CachedData where
  labels : List (String × String)
  existing_ads : List (String × ExistingAd)
  campaigns : List (String × String)
  deriving Repr, DecidableEq

/-- `models.ProcessingResult`: outcome of processing one ad group. -/
structure ProcessingResult where
  customer_id : String
  ad_group_id : String
  success : Bool
  new_ad_resource : Option String := none
  error : Option String := none
  operations_count : Nat := 0
  deriving Repr, DecidableEq

/-- Outcome of one raw remote call: `ok`, a `GoogleAdsException` with a
message (the class `labels.py` catches), or any other raised exception. -/
inductive PyResult (α : Type) where
  | ok (a : α)
  | adsExc (msg : String)
  | exc (msg : String)
  deriving Repr, DecidableEq

/-- Whether a raw remote outcome is a non-`GoogleAdsException` exception
(the only kind that escapes the `try/except GoogleAdsException` blocks
of `labels.py`). -/
def PyResult.isExc {α : Type} : PyResult α → Bool
  | .exc _ => true
  | _ => false

/-! ### operations/labels.py -/

/-- `labels.ensure_labels_exist` (labels.py lines 13–58): compute the
label names missing from `existing_labels`, create them in one batched
mutation, and merge the returned resource names back into a copy of the
map.  A `GoogleAdsException` from the mutation is caught and the input
map is returned unchanged; any other exception propagates.  The second
component records the argument list of each label-creation mutation
issued (empty when nothing was missing). -/
def ensure_labels_exist (mutate : List String → PyResult (List String))
    (label_names : List String) (existing_labels : List (String × String)) :
    Except String (List (String × String)) × List (List String) :=
  let needed := label_names.filter fun n => (existing_labels.lookup n).isNone
  if needed.isEmpty then (.ok existing_labels, [])
  else
    (match mutate needed with
      | .ok results => .ok (existing_labels ++ needed.zip results)
      | .adsExc _ => .ok existing_labels
      | .exc e => .error e,
     [needed])

/-- `labels.label_ads_batch` (labels.py lines 61–95): label ads in one
batched mutation; with no pairs, return 0 without a remote call; a
`GoogleAdsException` is caught and 0 is returned; on success the number
of per-operation results is returned.  The second component records the
mutation issued, if any. -/
def label_ads_batch (mutate : List (String × String) → PyResult (List String))
    (ad_label_pairs : List (String × String)) :
    Except String Nat × List (List (String × String)) :=
  if ad_label_pairs.isEmpty then (.ok 0, [])
  else
    (match mutate ad_label_pairs with
      | .ok results => .ok results.length
      | .adsExc _ => .ok 0
      | .exc e => .error e,
     [ad_label_pairs])

/-- `labels.label_ad_groups_batch` (labels.py lines 98–132): identical
shape to `label_ads_batch`, applied to ad groups. -/
def label_ad_groups_batch (mutate : List (String × String) → PyResult (List String))
    (ad_group_label_pairs : List (String × String)) :
    Except String Nat × List (List (String × String)) :=
  if ad_group_label_pairs.isEmpty then (.ok 0, [])
  else
    (match mutate ad_group_label_pairs with
      | .ok results => .ok results.length
      | .adsExc _ => .ok 0
      | .exc e => .error e,
     [ad_group_label_pairs])

/-! ### Operation Builder (main_optimized.py lines 232–286) -/

/-- Output of the content generator `generate_themed_content`
(templates/generators.py), a pure function supplied as a capability. -/
structure GeneratedContent where
  extra_headlines : List String
  extra_descriptions : List String
  path1 : String
  deriving Repr, DecidableEq

/-- The publish payload assembled for one new responsive search ad. -/
structure AdData where
  ad_group_resource : String
  final_url : String
  headlines : List String
  descriptions : List String
  path1 : String
  path2 : String
  deriving Repr, DecidableEq

/-- Modelled from the spec: `build_ad_data` (operations/ads.py, not under
src/) "composes a publish payload reusing the first three existing
headlines and first existing description as the stable base, appending
generator-supplied themed headlines/descriptions and path segment". -/
def build_ad_data (ad_group_resource final_url : String)
    (base_headlines : List String) (base_description : String)
    (extra_headlines extra_descriptions : List String)
    (path1 path2 : String) : AdData :=
  { ad_group_resource := ad_group_resource
    final_url := final_url
    headlines := base_headlines ++ extra_headlines
    descriptions := [base_description] ++ extra_descriptions
    path1 := path1
    path2 := path2 }

/-- Result of `_build_operations_for_ad_group` when it does not skip:
the Python dict with keys `ad_data`, `ad_labels`, `ag_labels`, `old_ad`. -/
structure BuildResult where
  ad_data : AdData
  ad_labels : List (String × String)
  ag_labels : List (String × String)
  old_ad : String
  deriving Repr, DecidableEq

/-- `ThemaAdsProcessor._build_operations_for_ad_group` (main_optimized.py
lines 232–286).  `gen` is the content generator applied to the theme.
Returns `.ok none` when the ad group has no cached existing ad or the
existing ad has no final URL (Python `return None`); raises a `KeyError`
(modelled as `.error`) when the `BF_2025` label is missing from the
label map; otherwise returns the build result.  Python `x or y or ""`
on strings is first-truthy selection, where only `""` is falsy. -/
def build_operations_for_ad_group (theme : String)
    (gen : String → List String → String → GeneratedContent)
    (ad_group_resource : String) (cached_data : CachedData)
    (labels : List (String × String)) :
    Except String (Option BuildResult) :=
  match cached_data.existing_ads.lookup ad_group_resource with
  | none => .ok none
  | some existing_ad =>
    if existing_ad.final_urls.isEmpty then .ok none
    else
      let final_url := existing_ad.final_urls.headD ""
      let base_headlines_3 := existing_ad.headlines.take 3
      let base_desc_1 := existing_ad.descriptions.headD ""
      let g := gen theme base_headlines_3 base_desc_1
      match labels.lookup "BF_2025" with
      | none => .error "KeyError: BF_2025"
      | some bf =>
        .ok (some
          { ad_data := build_ad_data ad_group_resource final_url
              base_headlines_3 base_desc_1
              g.extra_headlines g.extra_descriptions g.path1
              (if existing_ad.path2 ≠ "" then existing_ad.path2
               else existing_ad.path1)
            ad_labels := []
            ag_labels := [(ad_group_resource, bf)]
            old_ad := existing_ad.resource_name })

/-- Accumulated output of the build loop (main_optimized.py lines
132–150): publish operations, ad-label operations, ad-group-label
operations, and old ads to label, each in input order. -/
structure BuiltBatch where
  ad_operations : List AdData
  label_operations_ads : List (String × String)
  label_operations_ad_groups : List (String × String)
  old_ads_to_label : List String
  deriving Repr, DecidableEq

/-- The build loop of `process_customer` (main_optimized.py lines
132–150): run the Operation Builder over `zip(inputs, ad_group_resources)`
in order, skipping `None` results and accumulating the rest; a raised
exception aborts the loop.  Python `if result["old_ad"]:` is string
truthiness: the old ad is collected only when its resource name is
non-empty. -/
def build_all (theme : String)
    (gen : String → List String → String → GeneratedContent)
    (cached_data : CachedData) (labels : List (String × String)) :
    List String → Except String BuiltBatch
  | [] => .ok ⟨[], [], [], []⟩
  | ag_resource :: rest =>
    match build_operations_for_ad_group theme gen ag_resource cached_data labels with
    | .error e => .error e
    | .ok none => build_all theme gen cached_data labels rest
    | .ok (some r) =>
      match build_all theme gen cached_data labels rest with
      | .error e => .error e
      | .ok b =>
        .ok ⟨r.ad_data :: b.ad_operations,
             r.ad_labels ++ b.label_operations_ads,
             r.ag_labels ++ b.label_operations_ad_groups,
             (if r.old_ad ≠ "" then [r.old_ad] else []) ++ b.old_ads_to_label⟩

/-! ### Account Dispatcher (main_optimized.py lines 99–230) -/

/-- One remote API call issued by the dispatcher, as recorded in the
call trace. -/
inductive RemoteCall where
  | searchPrefetch (customer_id : String) (ad_group_resources : List String)
  | mutateLabels (customer_id : String) (names : List String)
  | createAds (customer_id : String) (operations : List AdData)
  | mutateAdLabels (customer_id : String) (pairs : List (String × String))
  | mutateAdGroupLabels (customer_id : String) (pairs : List (String × String))
  deriving Repr, DecidableEq

/-- Whether a remote call is an ad-creation or label-attachment
mutation, i.e. one of the mutations submitted after the build step. -/
def RemoteCall.isPublishOrAttach : RemoteCall → Bool
  | .createAds _ _ => true
  | .mutateAdLabels _ _ => true
  | .mutateAdGroupLabels _ _ => true
  | _ => false

/-- The remote capabilities and pure collaborators the processor uses
for one customer: prefetch (bulk search), the raw label-creation
mutation used by `ensure_labels_exist`, the batched RSA creation
`create_rsa_batch` (operations/ads.py; per the spec it returns
per-operation results or raises), the raw ad-label and ad-group-label
mutations used by `label_ads_batch` / `label_ad_groups_batch`, the pure
content generator, and `AdGroupService.ad_group_path` partially applied
to the customer. -/
structure CustomerEnv where
  prefetch : List String → Except String CachedData
  mutateLabels : List String → PyResult (List String)
  createRsaBatch : List AdData → Except String (List String)
  mutateAdLabels : List (String × String) → PyResult (List String)
  mutateAdGroupLabels : List (String × String) → PyResult (List String)
  gen : String → List String → String → GeneratedContent
  adGroupPath : String → String

/-- The whole remote environment: one capability record per customer
id.  The remote platform partitions creatives, labels and quota by
account, so a call for one customer is a call to that customer's
capabilities only. -/
def Env : Type := String → CustomerEnv

/-- A failed `ProcessingResult` as built in the `except` handler of
`process_customer` (main_optimized.py lines 222–230). -/
def failedResult (customer_id : String) (e : String) (inp : AdGroupInput) :
    ProcessingResult :=
  { customer_id := customer_id, ad_group_id := inp.ad_group_id,
    success := false, new_ad_resource := none, error := some e,
    operations_count := 0 }

/-- A synthetic dry-run success result (main_optimized.py lines
161–169); note it copies `customer_id` from the input row. -/
def dryRunResult (inp : AdGroupInput) : ProcessingResult :=
  { customer_id := inp.customer_id, ad_group_id := inp.ad_group_id,
    success := true, new_ad_resource := none, error := none,
    operations_count := 1 }

/-- The result-building loop of `process_customer` (main_optimized.py
lines 205–218): for input index `i`, `success = i < len(new_ad_resources)`
and `new_ad_resource = new_ad_resources[i]` when in range. -/
def finalResults (customer_id : String) (inputs : List AdGroupInput)
    (new_ad_resources : List String) : List ProcessingResult :=
  inputs.enum.map fun p =>
    { customer_id := customer_id, ad_group_id := p.2.ad_group_id,
      success := decide (p.1 < new_ad_resources.length),
      new_ad_resource := new_ad_resources[p.1]?,
      error := none, operations_count := 1 }

/-- The three post-publish labeling steps of `process_customer`
(main_optimized.py lines 178–203): label old ads with `THEMA_ORIGINAL`,
label each new ad with `SINGLES_DAY` and `THEMA_AD`, label ad groups.
A missing label name raises a `KeyError` before the corresponding
mutation is issued; each batch helper catches the remote-API exception
itself.  Returns the first raised exception, if any, with the trace of
label mutations issued. -/
def labelingStage (cenv : CustomerEnv) (customer_id : String)
    (labels : List (String × String)) (old_ads_to_label : List String)
    (new_ad_resources : List String)
    (label_operations_ad_groups : List (String × String)) :
    Except String Unit × List RemoteCall :=
  let s1 : Except String Unit × List RemoteCall :=
    if old_ads_to_label.isEmpty then (.ok (), [])
    else
      match labels.lookup "THEMA_ORIGINAL" with
      | none => (.error "KeyError: THEMA_ORIGINAL", [])
      | some orig =>
        let r := label_ads_batch cenv.mutateAdLabels
          (old_ads_to_label.map fun ad => (ad, orig))
        (r.1.map fun _ => (), r.2.map (RemoteCall.mutateAdLabels customer_id))
  match s1 with
  | (.error e, t) => (.error e, t)
  | (.ok _, t1) =>
    let s2 : Except String Unit × List RemoteCall :=
      if new_ad_resources.isEmpty then (.ok (), [])
      else
        match labels.lookup "SINGLES_DAY" with
        | none => (.error "KeyError: SINGLES_DAY", [])
        | some sd =>
          match labels.lookup "THEMA_AD" with
          | none => (.error "KeyError: THEMA_AD", [])
          | some ta =>
            let new_label_ops :=
              new_ad_resources.flatMap fun ad_res => [(ad_res, sd), (ad_res, ta)]
            let r := label_ads_batch cenv.mutateAdLabels new_label_ops
            (r.1.map fun _ => (), r.2.map (RemoteCall.mutateAdLabels customer_id))
    match s2 with
    | (.error e, t2) => (.error e, t1 ++ t2)
    | (.ok _, t2) =>
      let s3 : Except String Unit × List RemoteCall :=
        if label_operations_ad_groups.isEmpty then (.ok (), [])
        else
          let r := label_ad_groups_batch cenv.mutateAdGroupLabels
            label_operations_ad_groups
          (r.1.map fun _ => (), r.2.map (RemoteCall.mutateAdGroupLabels customer_id))
      match s3 with
      | (.error e, t3) => (.error e, t1 ++ t2 ++ t3)
      | (.ok _, t3) => (.ok (), t1 ++ t2 ++ t3)

/-- `ThemaAdsProcessor.process_customer` (main_optimized.py lines
99–230): prefetch, ensure labels, build operations in memory, then
either return synthetic dry-run successes or create the ads and run the
labeling steps, building one result per input row; the whole body sits
in a `try` whose handler returns one failed result per input carrying
the exception message.  Also returns the trace of remote calls issued. -/
def process_customer (cenv : CustomerEnv) (theme : String)
    (label_names : List String) (dry_run : Bool) (customer_id : String)
    (inputs : List AdGroupInput) :
    List ProcessingResult × List RemoteCall :=
  let ad_group_resources :=
    inputs.map fun inp => cenv.adGroupPath inp.ad_group_id
  let t0 := [RemoteCall.searchPrefetch customer_id ad_group_resources]
  match cenv.prefetch ad_group_resources with
  | .error e => (inputs.map (failedResult customer_id e), t0)
  | .ok cached_data =>
    let el := ensure_labels_exist cenv.mutateLabels
      label_names cached_data.labels
    let t1 := t0 ++ el.2.map (RemoteCall.mutateLabels customer_id)
    match el.1 with
    | .error e => (inputs.map (failedResult customer_id e), t1)
    | .ok labels =>
      match build_all theme cenv.gen cached_data labels ad_group_resources with
      | .error e => (inputs.map (failedResult customer_id e), t1)
      | .ok b =>
        if dry_run then (inputs.map dryRunResult, t1)
        else
          let t2 := t1 ++ [RemoteCall.createAds customer_id b.ad_operations]
          match cenv.createRsaBatch b.ad_operations with
          | .error e => (inputs.map (failedResult customer_id e), t2)
          | .ok new_ad_resources =>
            let ls := labelingStage cenv customer_id labels b.old_ads_to_label
              new_ad_resources b.label_operations_ad_groups
            match ls.1 with
            | .error e => (inputs.map (failedResult customer_id e), t2 ++ ls.2)
            | .ok _ =>
              (finalResults customer_id inputs new_ad_resources, t2 ++ ls.2)

/-- The grouping of `process_all` (main_optimized.py lines 60–63):
`defaultdict(list)` keyed by `customer_id`, preserving first-appearance
order of customers and input order within each customer. -/
def groupByCustomer (inputs : List AdGroupInput) :
    List (String × List AdGroupInput) :=
  inputs.foldl (fun acc inp =>
    if acc.any fun p => p.1 == inp.customer_id then
      acc.map fun p =>
        if p.1 == inp.customer_id then (p.1, p.2 ++ [inp]) else p
    else acc ++ [(inp.customer_id, [inp])]) []

/-- `ThemaAdsProcessor.process_all` (main_optimized.py lines 54–97)
restricted to its result flow: group the inputs by customer, process
each customer's group, and concatenate the per-customer result lists.
The semaphore only bounds scheduling; every customer group is processed
by exactly one `process_customer` call on its own inputs. -/
def process_all (env : Env) (theme : String) (label_names : List String)
    (dry_run : Bool) (inputs : List AdGroupInput) : List ProcessingResult :=
  (groupByCustomer inputs).flatMap fun g =>
    (process_customer (env g.1) theme label_names dry_run g.1 g.2).1

/-- `ThemaAdsProcessor.__init__`: the theme constant. -/
def themeDefault : String := "singles_day"

/-- `ThemaAdsProcessor.__init__`: `self.label_names`. -/
def labelNamesDefault : List String :=
  ["SINGLES_DAY", "THEMA_AD", "THEMA_ORIGINAL", "BF_2025"]

/-! ### Concrete instances used by witnesses and counterexamples -/

/-- A concrete content generator for witness evaluation. -/
def genW : String → List String → String → GeneratedContent :=
  fun theme _ _ => ⟨["XH1", "XH2"], ["XD1"], "xp-" ++ theme⟩

/-- A concrete existing creative with headlines, a description and two
landing URLs, cached under ad-group resource `"1/20"`. -/
def adW : ExistingAd :=
  ⟨"old/20", "ENABLED", ["h1", "h2", "h3", "h4"], ["d1", "d2"],
   ["u1", "u2"], "pa", "pb"⟩

/-- A concrete input row whose ad group has no cached creative. -/
def inpA : AdGroupInput := ⟨"1", "camp", "c1", "10"⟩

/-- A concrete input row whose ad group has the cached creative `adW`. -/
def inpB : AdGroupInput := ⟨"1", "camp", "c1", "20"⟩

/-- A label map resolving all four label names of the processor. -/
def allLabelsW : List (String × String) :=
  [("SINGLES_DAY", "lab/1"), ("THEMA_AD", "lab/2"),
   ("THEMA_ORIGINAL", "lab/3"), ("BF_2025", "lab/4")]

/-- Cached account data: all labels resolved, one creative under
`"1/20"`, no creative under `"1/10"`. -/
def cachedW : CachedData := ⟨allLabelsW, [("1/20", adW)], []⟩

/-- Cached account data with no labels resolved yet. -/
def cachedNoLabelsW : CachedData := ⟨[], [("1/20", adW)], []⟩

/-- A concrete healthy customer environment over `cachedW`: prefetch
succeeds, label creation succeeds, ad creation returns one new ad
resource per operation, label attachment succeeds. -/
def cenvW : CustomerEnv :=
  { prefetch := fun _ => .ok cachedW
    mutateLabels := fun ns => .ok (ns.map fun n => "res/" ++ n)
    createRsaBatch := fun ops => .ok (ops.map fun op => "newad:" ++ op.ad_group_resource)
    mutateAdLabels := fun pairs => .ok (pairs.map fun _ => "r")
    mutateAdGroupLabels := fun pairs => .ok (pairs.map fun _ => "r")
    gen := genW
    adGroupPath := fun ag => "1/" ++ ag }

/-- `cenvW` with an unpopulated label cache, so the ensure-labels step
must create all four labels remotely. -/
def cenvNoLabelsW : CustomerEnv :=
  { cenvW with prefetch := fun _ => .ok cachedNoLabelsW }

/-- `cenvW` with a failing prefetch. -/
def cenvPrefetchFailW : CustomerEnv :=
  { cenvW with prefetch := fun _ => .error "prefetch down" }

/-- `cenvW` whose label-ensure mutation raises a non-remote-API
exception. -/
def cenvEnsureFailW : CustomerEnv :=
  { cenvNoLabelsW with mutateLabels := fun _ => .exc "ensure down" }

/-- `cenvW` whose label-attachment mutations fail with the remote-API
exception (`GoogleAdsException`). -/
def cenvLabelFailW : CustomerEnv :=
  { cenvW with
    mutateAdLabels := fun _ => .adsExc "label fail"
    mutateAdGroupLabels := fun _ => .adsExc "label fail" }

/-! ### Helper lemmas -/

lemma lookup_append {α : Type} (l1 l2 : List (String × α)) (k : String) :
    (l1 ++ l2).lookup k =
      ((l1.lookup k).orElse fun _ => l2.lookup k) := by
  induction l1 with
  | nil => simp [List.lookup]
  | cons p t ih =>
    rcases p with ⟨a, b⟩
    by_cases h : k = a
    · subst h
      simp [List.lookup]
    · have hb : (k == a) = false := by
        simpa using h
      simp [List.lookup, hb, ih]

lemma lookup_isSome_of_mem_zip {α : Type} (ns : List String) (rs : List α)
    (n : String) (hmem : n ∈ ns) (hlen : rs.length = ns.length) :
    ((ns.zip rs).lookup n).isSome := by
  induction ns generalizing rs with
  | nil => cases hmem
  | cons a t ih =>
    cases rs with
    | nil => simp at hlen
    | cons r rt =>
      by_cases h : n = a
      · subst h
        simp [List.lookup]
      · have hb : (n == a) = false := by
          simpa using h
        have hmem2 : n ∈ t := by
          rcases List.mem_cons.mp hmem with h1 | h1
          · exact absurd h1 h
          · exact h1
        have hlen2 : rt.length = t.length := by
          simpa using hlen
        simpa [List.zip, List.lookup, hb] using ih rt hmem2 hlen2

/-! ### Claim theorems -/

/-- C4.  For every target, with the `BF_2025` label resolved in the label
map, the Operation Builder returns `None` exactly when the cache has no
existing creative for the target's ad-group resource or the creative's
landing-URL list is empty, and returns a non-`None` build result
whenever an existing creative with at least one landing URL is
present. -/
theorem c4_builder_returns_none_iff_no_creative_or_no_url
    (theme : String) (gen : String → List String → String → GeneratedContent)
    (ad_group_resource : String) (cached_data : CachedData)
    (labels : List (String × String))
    (hbf : (labels.lookup "BF_2025").isSome) :
    (build_operations_for_ad_group theme gen ad_group_resource cached_data labels
        = .ok none ↔
      cached_data.existing_ads.lookup ad_group_resource = none ∨
      ∃ ad, cached_data.existing_ads.lookup ad_group_resource = some ad ∧
        ad.final_urls = []) ∧
    (∀ ad, cached_data.existing_ads.lookup ad_group_resource = some ad →
      ad.final_urls ≠ [] →
      ∃ r, build_operations_for_ad_group theme gen ad_group_resource cached_data
        labels = .ok (some r)) := by
  rcases hsome : labels.lookup "BF_2025" with _ | bf
  · rw [hsome] at hbf
    simp at hbf
  constructor
  · cases had : cached_data.existing_ads.lookup ad_group_resource with
    | none =>
      simp [build_operations_for_ad_group, had]
    | some ad =>
      by_cases hurl : ad.final_urls = []
      · simp [build_operations_for_ad_group, had, hurl, hsome]
      · have hne : ¬ ad.final_urls.isEmpty := by
          simpa [List.isEmpty_iff] using hurl
        simp [build_operations_for_ad_group, had, hne, hsome, hurl]
  · intro ad had hurl
    have hne : ad.final_urls.isEmpty = false := by
      simp [List.isEmpty_iff, hurl]
    simp [build_operations_for_ad_group, had, hne, hsome]

/-- C4 witness: at the concrete cached account data `cachedW`, the
builder yields a non-`None` result for the ad group with a creative
and one landing URL. -/
theorem c4_builder_returns_none_iff_no_creative_or_no_url_witness :
    ∃ r, build_operations_for_ad_group themeDefault genW "1/20" cachedW
      allLabelsW = .ok (some r) :=
  (c4_builder_returns_none_iff_no_creative_or_no_url themeDefault genW "1/20"
      cachedW allLabelsW (by decide)).2 adW (by decide) (by decide)

/-- C7.  For every target with an existing creative and at least one
landing URL (and the `BF_2025` label resolved), the built publish
payload uses the first three existing headlines and the first existing
description as the stable base, appends the generator-supplied themed
headlines, descriptions and path segment, targets the creative's first
landing URL, and carries the creative's `path2`, falling back to its
`path1` when `path2` is empty. -/
theorem c7_payload_composition
    (theme : String) (gen : String → List String → String → GeneratedContent)
    (ad_group_resource : String) (cached_data : CachedData)
    (labels : List (String × String)) (ad : ExistingAd) (bf : String)
    (had : cached_data.existing_ads.lookup ad_group_resource = some ad)
    (hurl : ad.final_urls ≠ [])
    (hbf : labels.lookup "BF_2025" = some bf) :
    ∃ r, build_operations_for_ad_group theme gen ad_group_resource cached_data
        labels = .ok (some r) ∧
      r.ad_data.headlines = ad.headlines.take 3 ++
        (gen theme (ad.headlines.take 3) (ad.descriptions.headD "")).extra_headlines ∧
      r.ad_data.descriptions = (ad.descriptions.headD "") ::
        (gen theme (ad.headlines.take 3) (ad.descriptions.headD "")).extra_descriptions ∧
      r.ad_data.path1 =
        (gen theme (ad.headlines.take 3) (ad.descriptions.headD "")).path1 ∧
      r.ad_data.path2 = (if ad.path2 ≠ "" then ad.path2 else ad.path1) ∧
      r.ad_data.final_url = ad.final_urls.headD "" ∧
      r.ad_data.ad_group_resource = ad_group_resource ∧
      r.old_ad = ad.resource_name := by
  have hne : ad.final_urls.isEmpty = false := by
    simp [List.isEmpty_iff, hurl]
  refine ⟨BuildResult.mk (build_ad_data ad_group_resource (ad.final_urls.headD "")
      (ad.headlines.take 3) (ad.descriptions.headD "")
      (gen theme (ad.headlines.take 3) (ad.descriptions.headD "")).extra_headlines
      (gen theme (ad.headlines.take 3) (ad.descriptions.headD "")).extra_descriptions
      (gen theme (ad.headlines.take 3) (ad.descriptions.headD "")).path1
      (if ad.path2 ≠ "" then ad.path2 else ad.path1))
      [] [(ad_group_resource, bf)] ad.resource_name,
    ?_, ?_, ?_, rfl, rfl, ?_, rfl, rfl⟩
  · simp [build_operations_for_ad_group, had, hne, hbf]
  · simp [build_ad_data]
  · simp [build_ad_data]
  · simp [build_ad_data]

/-- C7 witness: the payload composition at the concrete creative `adW`. -/
theorem c7_payload_composition_witness :
    ∃ r, build_operations_for_ad_group themeDefault genW "1/20" cachedW
        allLabelsW = .ok (some r) ∧
      r.ad_data.headlines = adW.headlines.take 3 ++
        (genW themeDefault (adW.headlines.take 3)
          (adW.descriptions.headD "")).extra_headlines ∧
      r.ad_data.descriptions = (adW.descriptions.headD "") ::
        (genW themeDefault (adW.headlines.take 3)
          (adW.descriptions.headD "")).extra_descriptions ∧
      r.ad_data.path1 = (genW themeDefault (adW.headlines.take 3)
        (adW.descriptions.headD "")).path1 ∧
      r.ad_data.path2 = (if adW.path2 ≠ "" then adW.path2 else adW.path1) ∧
      r.ad_data.final_url = adW.final_urls.headD "" ∧
      r.ad_data.ad_group_resource = "1/20" ∧
      r.old_ad = adW.resource_name :=
  c7_payload_composition themeDefault genW "1/20" cachedW allLabelsW adW
    "lab/4" (by decide) (by decide) (by decide)

/-- C6.  For every call to `ensure_labels_exist` with a set of names
(no duplicates) and a known name→id map: every label-creation mutation
it issues carries only names absent from the known map, with no name
repeated; and when the single batched mutation succeeds with one result
per operation, the returned map extends the known map (no known entry
is overridden), resolves every requested name, and has exactly one new
entry per newly created name. -/
theorem c6_ensure_labels_creates_only_missing
    (mutate : List String → PyResult (List String))
    (label_names : List String) (existing_labels : List (String × String))
    (hnodup : label_names.Nodup) :
    (∀ ns ∈ (ensure_labels_exist mutate label_names existing_labels).2,
      ns.Nodup ∧ ∀ n ∈ ns, existing_labels.lookup n = none) ∧
    (∀ results,
      mutate (label_names.filter fun n => (existing_labels.lookup n).isNone)
        = .ok results →
      results.length =
        (label_names.filter fun n => (existing_labels.lookup n).isNone).length →
      ∃ m, (ensure_labels_exist mutate label_names existing_labels).1 = .ok m ∧
        (∀ n v, existing_labels.lookup n = some v → m.lookup n = some v) ∧
        (∀ n ∈ label_names, (m.lookup n).isSome) ∧
        m.length = existing_labels.length +
          (label_names.filter fun n => (existing_labels.lookup n).isNone).length) := by
  constructor
  · intro ns hns
    by_cases hne : (label_names.filter fun n =>
        (existing_labels.lookup n).isNone).isEmpty
    · simp [ensure_labels_exist, hne] at hns
    · simp [ensure_labels_exist, hne] at hns
      subst hns
      refine ⟨hnodup.filter _, fun n hn => ?_⟩
      have := (List.mem_filter.mp hn).2
      simpa [Option.isNone_iff_eq_none] using this
  · intro results hmut hlen
    by_cases hne : (label_names.filter fun n =>
        (existing_labels.lookup n).isNone).isEmpty
    · refine ⟨existing_labels, by simp [ensure_labels_exist, hne], ?_, ?_, ?_⟩
      · intro n v hv
        exact hv
      · intro n hn
        by_contra hnone
        have h1 : (existing_labels.lookup n).isNone := by
          cases h2 : existing_labels.lookup n with
          | none => simp
          | some v => exact absurd (by simp [h2]) hnone
        have : n ∈ label_names.filter fun n =>
            (existing_labels.lookup n).isNone := by
          exact List.mem_filter.mpr ⟨hn, h1⟩
        rw [List.isEmpty_iff] at hne
        rw [hne] at this
        cases this
      · rw [List.isEmpty_iff] at hne
        simp [hne]
    · refine ⟨existing_labels ++
        (label_names.filter fun n => (existing_labels.lookup n).isNone).zip
          results, ?_, ?_, ?_, ?_⟩
      · simp [ensure_labels_exist, hne, hmut]
      · intro n v hv
        rw [lookup_append, hv]
        rfl
      · intro n hn
        rw [lookup_append]
        cases h2 : existing_labels.lookup n with
        | some v => simp [Option.orElse]
        | none =>
          have hmemf : n ∈ label_names.filter fun n =>
              (existing_labels.lookup n).isNone :=
            List.mem_filter.mpr ⟨hn, by simp [h2]⟩
          have := lookup_isSome_of_mem_zip _ results n hmemf hlen
          simpa [Option.orElse] using this
      · rw [List.length_append, List.length_zip, hlen]
        simp

/-- C6 witness: with the default label names and one of them already
known, the single creation mutation covers exactly the three missing
names and the merged map resolves all four. -/
theorem c6_ensure_labels_creates_only_missing_witness :
    ∃ m, (ensure_labels_exist (fun ns => .ok (ns.map fun n => "res/" ++ n))
        labelNamesDefault [("THEMA_AD", "t")]).1 = .ok m ∧
      (∀ n v, [("THEMA_AD", "t")].lookup n = some v → m.lookup n = some v) ∧
      (∀ n ∈ labelNamesDefault, (m.lookup n).isSome) ∧
      m.length = [("THEMA_AD", "t")].length +
        (labelNamesDefault.filter fun n =>
          (([("THEMA_AD", "t")] : List (String × String)).lookup n).isNone).length :=
  (c6_ensure_labels_creates_only_missing
      (fun ns => .ok (ns.map fun n => "res/" ++ n))
      labelNamesDefault [("THEMA_AD", "t")] (by decide)).2
    _ rfl (by decide)

/-- C10.  When the remote label-creation mutation fails with the
remote-API exception (`GoogleAdsException`), `ensure_labels_exist` does
not propagate the exception and returns the input known map unchanged
(so the returned map can lack some of the requested names). -/
theorem c10_ensure_labels_remote_failure_returns_input
    (mutate : List String → PyResult (List String))
    (label_names : List String) (existing_labels : List (String × String))
    (msg : String)
    (h : mutate (label_names.filter fun n => (existing_labels.lookup n).isNone)
      = .adsExc msg) :
    (ensure_labels_exist mutate label_names existing_labels).1
      = .ok existing_labels := by
  by_cases hne : (label_names.filter fun n =>
      (existing_labels.lookup n).isNone).isEmpty
  · simp [ensure_labels_exist, hne]
  · simp [ensure_labels_exist, hne, h]

/-- C10 witness: with every creation mutation failing remotely, the
known map with only `THEMA_AD` resolved is returned unchanged, lacking
the other three requested names. -/
theorem c10_ensure_labels_remote_failure_returns_input_witness :
    (ensure_labels_exist (fun _ => .adsExc "quota") labelNamesDefault
      [("THEMA_AD", "t")]).1 = .ok [("THEMA_AD", "t")] ∧
    (([("THEMA_AD", "t")] : List (String × String)).lookup "BF_2025").isNone :=
  ⟨c10_ensure_labels_remote_failure_returns_input (fun _ => .adsExc "quota")
    labelNamesDefault [("THEMA_AD", "t")] "quota" rfl, by decide⟩

/-- C3.  An exception during the prefetch step or the ensure-labels
step (before any publish mutation) makes the dispatcher return one
failed `ProcessingResult` per input target of that account, each
carrying the exception's message; and changing the environment of one
customer leaves the processing of every other customer unchanged. -/
theorem c3_account_failure_fails_all_targets_of_account_only
    (env : Env) (theme : String) (label_names : List String)
    (dry_run : Bool) (customer_id : String) (inputs : List AdGroupInput)
    (e : String) :
    ((env customer_id).prefetch (inputs.map fun inp =>
        (env customer_id).adGroupPath inp.ad_group_id) = .error e →
      (process_customer (env customer_id) theme label_names dry_run
        customer_id inputs).1 = inputs.map (failedResult customer_id e)) ∧
    (∀ cd, (env customer_id).prefetch (inputs.map fun inp =>
        (env customer_id).adGroupPath inp.ad_group_id) = .ok cd →
      (ensure_labels_exist (env customer_id).mutateLabels label_names
        cd.labels).1 = .error e →
      (process_customer (env customer_id) theme label_names dry_run
        customer_id inputs).1 = inputs.map (failedResult customer_id e)) ∧
    (∀ env2 : Env, (∀ cid, cid ≠ customer_id → env2 cid = env cid) →
      ∀ cid, cid ≠ customer_id → ∀ inputs2,
        process_customer (env2 cid) theme label_names dry_run cid inputs2 =
        process_customer (env cid) theme label_names dry_run cid inputs2) := by
  refine ⟨?_, ?_, ?_⟩
  · intro h
    simp [process_customer, h]
  · intro cd hp he
    simp [process_customer, hp, he]
  · intro env2 hagree cid hne inputs2
    rw [hagree cid hne]

/-- C3 witness: with a concrete failing prefetch, both targets of the
account are failed with the prefetch error message. -/
theorem c3_account_failure_fails_all_targets_of_account_only_witness :
    (process_customer cenvPrefetchFailW themeDefault labelNamesDefault false
      "1" [inpA, inpB]).1 =
      [inpA, inpB].map (failedResult "1" "prefetch down") :=
  (c3_account_failure_fails_all_targets_of_account_only
      (fun _ => cenvPrefetchFailW) themeDefault labelNamesDefault false "1"
      [inpA, inpB] "prefetch down").1 rfl

/-- Helper: when the raw mutate never raises a non-remote-API
exception, `label_ads_batch` returns an `ok` count. -/
lemma label_ads_batch_fst_ok
    (mutate : List (String × String) → PyResult (List String))
    (pairs : List (String × String))
    (h : (mutate pairs).isExc = false) :
    ∃ n, (label_ads_batch mutate pairs).1 = .ok n := by
  by_cases hp : pairs.isEmpty
  · exact ⟨0, by simp [label_ads_batch, hp]⟩
  · cases hm : mutate pairs with
    | ok results => exact ⟨results.length, by simp [label_ads_batch, hp, hm]⟩
    | adsExc msg => exact ⟨0, by simp [label_ads_batch, hp, hm]⟩
    | exc msg => rw [hm] at h; simp [PyResult.isExc] at h

/-- Helper: when the raw mutate never raises a non-remote-API
exception, `label_ad_groups_batch` returns an `ok` count. -/
lemma label_ad_groups_batch_fst_ok
    (mutate : List (String × String) → PyResult (List String))
    (pairs : List (String × String))
    (h : (mutate pairs).isExc = false) :
    ∃ n, (label_ad_groups_batch mutate pairs).1 = .ok n := by
  by_cases hp : pairs.isEmpty
  · exact ⟨0, by simp [label_ad_groups_batch, hp]⟩
  · cases hm : mutate pairs with
    | ok results => exact ⟨results.length, by simp [label_ad_groups_batch, hp, hm]⟩
    | adsExc msg => exact ⟨0, by simp [label_ad_groups_batch, hp, hm]⟩
    | exc msg => rw [hm] at h; simp [PyResult.isExc] at h

/-- Helper: the outcome component of the labeling stage does not depend
on the label-attachment capabilities, provided neither raises a
non-remote-API exception: the only possible errors are the `KeyError`
branches, which depend only on the label map and the operand lists. -/
lemma labelingStage_fst_indep (cenv cenv2 : CustomerEnv) (cid cid2 : String)
    (labels : List (String × String)) (olds news : List String)
    (agops : List (String × String))
    (hA : ∀ p, (cenv.mutateAdLabels p).isExc = false)
    (hA2 : ∀ p, (cenv2.mutateAdLabels p).isExc = false)
    (hG : ∀ p, (cenv.mutateAdGroupLabels p).isExc = false)
    (hG2 : ∀ p, (cenv2.mutateAdGroupLabels p).isExc = false) :
    (labelingStage cenv cid labels olds news agops).1 =
    (labelingStage cenv2 cid2 labels olds news agops).1 := by
  unfold labelingStage
  by_cases ho : olds.isEmpty
  · simp only [ho, if_true]
    by_cases hn : news.isEmpty
    · simp only [hn, if_true]
      by_cases ha : agops.isEmpty
      · simp [ha]
      · obtain ⟨m, hm⟩ := label_ad_groups_batch_fst_ok cenv.mutateAdGroupLabels agops (hG agops)
        obtain ⟨m2, hm2⟩ := label_ad_groups_batch_fst_ok cenv2.mutateAdGroupLabels agops (hG2 agops)
        simp [ha, hm, hm2, Except.map]
    · simp only [hn, if_false]
      cases hsd : labels.lookup "SINGLES_DAY" with
      | none => simp [hsd]
      | some sd =>
        cases hta : labels.lookup "THEMA_AD" with
        | none => simp [hsd, hta]
        | some ta =>
          obtain ⟨k, hk⟩ := label_ads_batch_fst_ok cenv.mutateAdLabels
            (news.flatMap fun ad_res => [(ad_res, sd), (ad_res, ta)])
            (hA _)
          obtain ⟨k2, hk2⟩ := label_ads_batch_fst_ok cenv2.mutateAdLabels
            (news.flatMap fun ad_res => [(ad_res, sd), (ad_res, ta)])
            (hA2 _)
          by_cases ha : agops.isEmpty
          · simp [hsd, hta, hk, hk2, ha, Except.map]
          · obtain ⟨m, hm⟩ := label_ad_groups_batch_fst_ok cenv.mutateAdGroupLabels agops (hG agops)
            obtain ⟨m2, hm2⟩ := label_ad_groups_batch_fst_ok cenv2.mutateAdGroupLabels agops (hG2 agops)
            simp [hsd, hta, hk, hk2, ha, hm, hm2, Except.map]
  · simp only [ho, if_false]
    cases hor : labels.lookup "THEMA_ORIGINAL" with
    | none => simp [hor]
    | some orig =>
      obtain ⟨j, hj⟩ := label_ads_batch_fst_ok cenv.mutateAdLabels
        (olds.map fun ad => (ad, orig)) (hA _)
      obtain ⟨j2, hj2⟩ := label_ads_batch_fst_ok cenv2.mutateAdLabels
        (olds.map fun ad => (ad, orig)) (hA2 _)
      by_cases hn : news.isEmpty
      · by_cases ha : agops.isEmpty
        · simp [hor, hj, hj2, hn, ha, Except.map]
        · obtain ⟨m, hm⟩ := label_ad_groups_batch_fst_ok cenv.mutateAdGroupLabels agops (hG agops)
          obtain ⟨m2, hm2⟩ := label_ad_groups_batch_fst_ok cenv2.mutateAdGroupLabels agops (hG2 agops)
          simp [hor, hj, hj2, hn, ha, hm, hm2, Except.map]
      · cases hsd : labels.lookup "SINGLES_DAY" with
        | none => simp [hor, hj, hj2, hn, hsd, Except.map]
        | some sd =>
          cases hta : labels.lookup "THEMA_AD" with
          | none => simp [hor, hj, hj2, hn, hsd, hta, Except.map]
          | some ta =>
            obtain ⟨k, hk⟩ := label_ads_batch_fst_ok cenv.mutateAdLabels
              (news.flatMap fun ad_res => [(ad_res, sd), (ad_res, ta)])
              (hA _)
            obtain ⟨k2, hk2⟩ := label_ads_batch_fst_ok cenv2.mutateAdLabels
              (news.flatMap fun ad_res => [(ad_res, sd), (ad_res, ta)])
              (hA2 _)
            by_cases ha : agops.isEmpty
            · simp [hor, hj, hj2, hn, hsd, hta, hk, hk2, ha, Except.map]
            · obtain ⟨m, hm⟩ := label_ad_groups_batch_fst_ok cenv.mutateAdGroupLabels agops (hG agops)
              obtain ⟨m2, hm2⟩ := label_ad_groups_batch_fst_ok cenv2.mutateAdGroupLabels agops (hG2 agops)
              simp [hor, hj, hj2, hn, hsd, hta, hk, hk2, ha, hm, hm2, Except.map]

/-- C5.  `label_ads_batch` and `label_ad_groups_batch` never raise on a
remote labeling failure (`GoogleAdsException`): they return the count
of assignments actually applied — 0 when the atomic batch mutation
failed, the number of per-operation results when it succeeded.
Moreover, the results of a non-dry-run account pass do not change when
the label-attachment capabilities are replaced by failing ones, so a
labeling failure never changes the success flag of a target whose
publish operation succeeded. -/
theorem c5_label_failures_never_raise_nor_change_success :
    (∀ (mutate : List (String × String) → PyResult (List String))
        (pairs : List (String × String)) (msg : String),
      mutate pairs = .adsExc msg →
      (label_ads_batch mutate pairs).1 = .ok 0 ∧
      (label_ad_groups_batch mutate pairs).1 = .ok 0) ∧
    (∀ (mutate : List (String × String) → PyResult (List String))
        (pairs : List (String × String)) (results : List String),
      pairs ≠ [] → mutate pairs = .ok results →
      (label_ads_batch mutate pairs).1 = .ok results.length ∧
      (label_ad_groups_batch mutate pairs).1 = .ok results.length) ∧
    (∀ (cenv cenv2 : CustomerEnv) (theme : String)
        (label_names : List String) (customer_id : String)
        (inputs : List AdGroupInput),
      cenv2.prefetch = cenv.prefetch →
      cenv2.mutateLabels = cenv.mutateLabels →
      cenv2.createRsaBatch = cenv.createRsaBatch →
      cenv2.gen = cenv.gen →
      cenv2.adGroupPath = cenv.adGroupPath →
      (∀ p, (cenv.mutateAdLabels p).isExc = false) →
      (∀ p, (cenv2.mutateAdLabels p).isExc = false) →
      (∀ p, (cenv.mutateAdGroupLabels p).isExc = false) →
      (∀ p, (cenv2.mutateAdGroupLabels p).isExc = false) →
      (process_customer cenv theme label_names false customer_id inputs).1 =
      (process_customer cenv2 theme label_names false customer_id inputs).1) := by
  refine ⟨?_, ?_, ?_⟩
  · intro mutate pairs msg hm
    by_cases hp : pairs.isEmpty
    · constructor <;> simp [label_ads_batch, label_ad_groups_batch, hp]
    · constructor <;> simp [label_ads_batch, label_ad_groups_batch, hp, hm]
  · intro mutate pairs results hne hm
    have hp : pairs.isEmpty = false := by
      simp [List.isEmpty_iff, hne]
    constructor <;> simp [label_ads_batch, label_ad_groups_batch, hp, hm]
  · intro cenv cenv2 theme label_names customer_id inputs hpre hml hcr hg hap
      hA hA2 hG hG2
    simp only [process_customer, hpre, hml, hcr, hg, hap]
    cases hp : cenv.prefetch (inputs.map fun inp =>
        cenv.adGroupPath inp.ad_group_id) with
    | error e => rfl
    | ok cached_data =>
      dsimp only
      cases hel : (ensure_labels_exist cenv.mutateLabels label_names
          cached_data.labels).1 with
      | error e => rfl
      | ok labels =>
        dsimp only
        cases hb : build_all theme cenv.gen cached_data labels
            (inputs.map fun inp => cenv.adGroupPath inp.ad_group_id) with
        | error e => rfl
        | ok b =>
          dsimp only
          cases hcr2 : cenv.createRsaBatch b.ad_operations with
          | error e => rfl
          | ok new_ad_resources =>
            dsimp only
            have heq := labelingStage_fst_indep cenv cenv2 customer_id
              customer_id labels b.old_ads_to_label new_ad_resources
              b.label_operations_ad_groups hA hA2 hG hG2
            cases hls : (labelingStage cenv customer_id labels
                b.old_ads_to_label new_ad_resources
                b.label_operations_ad_groups).1 with
            | error e =>
              rw [hls] at heq
              simp [hls, ← heq]
            | ok u =>
              rw [hls] at heq
              simp [hls, ← heq]

/-- C5 witness: at the concrete environment, replacing all
label-attachment mutations by remotely failing ones leaves the
per-target results unchanged, and a concrete failing attachment returns
count 0 instead of raising. -/
theorem c5_label_failures_never_raise_nor_change_success_witness :
    ((label_ads_batch (fun _ => .adsExc "quota") [("a", "l")]).1 = .ok 0 ∧
      (label_ad_groups_batch (fun _ => .adsExc "quota") [("a", "l")]).1
        = .ok 0) ∧
    (process_customer cenvW themeDefault labelNamesDefault false "1"
        [inpA, inpB]).1 =
      (process_customer cenvLabelFailW themeDefault labelNamesDefault false
        "1" [inpA, inpB]).1 :=
  ⟨c5_label_failures_never_raise_nor_change_success.1
      (fun _ => .adsExc "quota") [("a", "l")] "quota" rfl,
   c5_label_failures_never_raise_nor_change_success.2.2 cenvW cenvLabelFailW
      themeDefault labelNamesDefault "1" [inpA, inpB] rfl rfl rfl rfl rfl
      (fun _ => rfl) (fun _ => rfl) (fun _ => rfl) (fun _ => rfl)⟩

/-- C8, counterexample.  In dry-run mode with an unpopulated label
cache, the dispatcher does issue a remote label-creation mutation (the
ensure-labels step runs before the dry-run check), refuting "issues no
remote mutation call (no ad creation and no label mutation)"; the
synthetic success results are still returned. -/
theorem c8_counterexample_dry_run_still_mutates_labels :
    RemoteCall.mutateLabels "1" labelNamesDefault ∈
      (process_customer cenvNoLabelsW themeDefault labelNamesDefault true "1"
        [inpA, inpB]).2 ∧
    (process_customer cenvNoLabelsW themeDefault labelNamesDefault true "1"
      [inpA, inpB]).1 = [inpA, inpB].map dryRunResult := by
  decide

/-- C8, amended.  In dry-run mode the dispatcher issues no ad-creation
and no label-attachment mutation on any path; and when the prefetch,
ensure-labels and build steps succeed, it returns one synthetic success
result per input target.  (The prefetch read and, when label names are
missing from the cache, the label-creation mutation still occur.) -/
theorem c8_dry_run_returns_synthetic_successes_without_publish
    (cenv : CustomerEnv) (theme : String) (label_names : List String)
    (customer_id : String) (inputs : List AdGroupInput) :
    (∀ c ∈ (process_customer cenv theme label_names true customer_id
        inputs).2, c.isPublishOrAttach = false) ∧
    (∀ cd labels b,
      cenv.prefetch (inputs.map fun inp => cenv.adGroupPath inp.ad_group_id)
        = .ok cd →
      (ensure_labels_exist cenv.mutateLabels label_names cd.labels).1
        = .ok labels →
      build_all theme cenv.gen cd labels
        (inputs.map fun inp => cenv.adGroupPath inp.ad_group_id) = .ok b →
      (process_customer cenv theme label_names true customer_id inputs).1 =
        inputs.map dryRunResult) := by
  constructor
  · intro c hc
    simp only [process_customer] at hc
    rcases hp : cenv.prefetch (inputs.map fun inp =>
        cenv.adGroupPath inp.ad_group_id) with e | cd
    · rw [hp] at hc
      simp at hc
      subst hc
      rfl
    · rw [hp] at hc
      simp only [] at hc
      rcases hel : (ensure_labels_exist cenv.mutateLabels label_names
          cd.labels).1 with e2 | labels
      · rw [hel] at hc
        simp at hc
        rcases hc with hc | hc
        · subst hc; rfl
        · obtain ⟨ns, _, hcc⟩ := hc
          subst hcc; rfl
      · rw [hel] at hc
        simp only [] at hc
        rcases hb : build_all theme cenv.gen cd labels
            (inputs.map fun inp => cenv.adGroupPath inp.ad_group_id) with
          e3 | b
        · rw [hb] at hc
          simp at hc
          rcases hc with hc | hc
          · subst hc; rfl
          · obtain ⟨ns, _, hcc⟩ := hc
            subst hcc; rfl
        · rw [hb] at hc
          simp at hc
          rcases hc with hc | hc
          · subst hc; rfl
          · obtain ⟨ns, _, hcc⟩ := hc
            subst hcc; rfl
  · intro cd labels b hp hel hb
    simp [process_customer, hp, hel, hb]

/-- C8 witness: the amended statement applied at the concrete dry-run
pass with an unpopulated label cache. -/
theorem c8_dry_run_returns_synthetic_successes_without_publish_witness :
    (RemoteCall.searchPrefetch "1" ["1/10", "1/20"]).isPublishOrAttach
      = false ∧
    (process_customer cenvNoLabelsW themeDefault labelNamesDefault true "1"
      [inpA, inpB]).1 = [inpA, inpB].map dryRunResult := by
  exact ⟨(c8_dry_run_returns_synthetic_successes_without_publish
      cenvNoLabelsW themeDefault labelNamesDefault "1" [inpA, inpB]).1
      (RemoteCall.searchPrefetch "1" ["1/10", "1/20"]) (by decide),
    (c8_dry_run_returns_synthetic_successes_without_publish
      cenvNoLabelsW themeDefault labelNamesDefault "1" [inpA, inpB]).2
      cachedNoLabelsW
      [("SINGLES_DAY", "res/SINGLES_DAY"), ("THEMA_AD", "res/THEMA_AD"),
       ("THEMA_ORIGINAL", "res/THEMA_ORIGINAL"), ("BF_2025", "res/BF_2025")]
      ⟨[⟨"1/20", "u1", ["h1", "h2", "h3", "XH1", "XH2"], ["d1", "XD1"],
        "xp-singles_day", "pb"⟩], [], [("1/20", "res/BF_2025")], ["old/20"]⟩
      rfl (by rfl) (by rfl)⟩

/-- C1.  The dispatcher and the Operation Builder consult no
done-label information at all — `CachedData` carries no ad-group→label
attachments and the builder checks only creative presence and landing
URLs — so a target processed in an earlier run (its ad group already
carrying the done label remotely, its account label map fully
resolved, as in `cachedW`) is built and submitted again: the publish
operation for its ad group appears in the trace and the target is
reported as a fresh success, not skipped. -/
theorem c1_already_done_target_is_republished :
    (process_customer cenvW themeDefault labelNamesDefault false "1"
        [inpB]).1 =
      [⟨"1", "20", true, some "newad:1/20", none, 1⟩] ∧
    RemoteCall.createAds "1" [⟨"1/20", "u1", ["h1", "h2", "h3", "XH1", "XH2"],
        ["d1", "XD1"], "xp-singles_day", "pb"⟩] ∈
      (process_customer cenvW themeDefault labelNamesDefault false "1"
        [inpB]).2 := by
  decide

/-- C2.  With two targets of one account where the first is skipped by
the Operation Builder (no cached creative) and the second is built and
its single publish operation succeeds, the result loop indexes the
batch response by input position: the skipped first target is reported
as a success carrying the ad created from the second target's
operation, and the second target is reported as failed with no error —
refuting the claimed per-target attribution, skip recording, and
own-operation new-ad reference. -/
theorem c2_results_misattributed_when_builder_skips :
    (process_customer cenvW themeDefault labelNamesDefault false "1"
        [inpA, inpB]).1 =
      [⟨"1", "10", true, some "newad:1/20", none, 1⟩,
       ⟨"1", "20", false, none, none, 1⟩] ∧
    RemoteCall.createAds "1" [⟨"1/20", "u1", ["h1", "h2", "h3", "XH1", "XH2"],
        ["d1", "XD1"], "xp-singles_day", "pb"⟩] ∈
      (process_customer cenvW themeDefault labelNamesDefault false "1"
        [inpA, inpB]).2 := by
  decide

end ThemaAds
